import Mathlib

/-!
Shallow embedding of `src/driver/amdxdna/aie2_event_trace.c`, the firmware
event-trace collector of the amdxdna driver, together with proofs about its
ring-buffer drain algorithm, its enable/disable state machine and its record
decoder.

Machine integers are modelled as `Nat` with explicit `% 2^32` / `% 2^64`
where the C code truncates or wraps.  Memory side effects (the bytes
`memcpy`'d into `kern_buf`, the metadata write, the `writel` clearing the
MSI-X pending bit, the firmware messages, the alloc/free pairs) are made
explicit in the return values and in a resource ledger carried by the
device-handle state.
-/

/-- `struct trace_event_metadata`: the trailing metadata block of the shared
ring buffer.  `tail_offset` is the absolute byte counter written by firmware,
`head_offset` the absolute byte counter last written by the host drain.
The `padding` field carries no behaviour and is omitted. -/
structure trace_event_metadata where
  tail_offset : Nat
  head_offset : Nat
deriving Repr, DecidableEq

/-- How one execution of the drain's `do`/`while` loop in
`aie2_get_trace_event_content` exited: via the `return 0` on an equal
read/write pointer, via the defensive `return 0` on `log_size > rb_size`,
or via the loop condition `rd_ptr < wr_ptr_wrap` turning false, carrying
`total_log_size` and the final `rd_ptr`. -/
inductive DrainExit where
  | emptyRange : DrainExit
  | corrupt : DrainExit
  | done (total_log_size rd_final : Nat) : DrainExit
deriving Repr, DecidableEq

/-- Result of the drain loop: the list of `(rd_ptr, log_size)` segments
`memcpy`'d into `kern_buf`, in order, and how the loop exited. -/
structure LoopOut where
  segs : List (Nat × Nat)
  exit : DrainExit
deriving Repr, DecidableEq

/-- The `do { ... } while (rd_ptr < wr_ptr_wrap);` loop of
`aie2_get_trace_event_content`, with an explicit fuel parameter standing in
for the unbounded C loop (theorem `C8_drain_loop_terminates` shows fuel 2 is
always enough, so any fuel of at least 2 realizes the loop exactly). -/
def drainLoop (rb_size wr_ptr_wrap : Nat) :
    Nat → Nat → Nat → List (Nat × Nat) → Option LoopOut
  | 0, _, _, _ => none
  | fuel + 1, rd_ptr, total_log_size, segs =>
    if wr_ptr_wrap = rd_ptr then
      some ⟨segs, .emptyRange⟩
    else
      let log_size := if rd_ptr < wr_ptr_wrap then wr_ptr_wrap - rd_ptr
                      else rb_size - rd_ptr
      if rb_size < log_size then
        some ⟨segs, .corrupt⟩
      else
        if (rd_ptr + log_size) % rb_size < wr_ptr_wrap then
          drainLoop rb_size wr_ptr_wrap fuel ((rd_ptr + log_size) % rb_size)
            (total_log_size + log_size) (segs ++ [(rd_ptr, log_size)])
        else
          some ⟨segs ++ [(rd_ptr, log_size)],
                .done (total_log_size + log_size) ((rd_ptr + log_size) % rb_size)⟩

/-- Unfolding equation for `drainLoop` at a successor fuel value. -/
theorem drainLoop_succ (rb_size wr_ptr_wrap fuel rd_ptr total_log_size : Nat)
    (segs : List (Nat × Nat)) :
    drainLoop rb_size wr_ptr_wrap (fuel + 1) rd_ptr total_log_size segs =
      if wr_ptr_wrap = rd_ptr then
        some ⟨segs, .emptyRange⟩
      else
        let log_size := if rd_ptr < wr_ptr_wrap then wr_ptr_wrap - rd_ptr
                        else rb_size - rd_ptr
        if rb_size < log_size then
          some ⟨segs, .corrupt⟩
        else
          if (rd_ptr + log_size) % rb_size < wr_ptr_wrap then
            drainLoop rb_size wr_ptr_wrap fuel ((rd_ptr + log_size) % rb_size)
              (total_log_size + log_size) (segs ++ [(rd_ptr, log_size)])
          else
            some ⟨segs ++ [(rd_ptr, log_size)],
                  .done (total_log_size + log_size) ((rd_ptr + log_size) % rb_size)⟩ := rfl

/-- The bytes `memcpy(kern_buf + offset, sysBuf + rd_ptr, log_size)` reads
from the log area: the byte of `sysBuf` at each physical offset
`rd_ptr, rd_ptr+1, ..., rd_ptr+log_size-1`. -/
def segBytes (sysBuf : Nat → Nat) (rd_ptr log_size : Nat) : List Nat :=
  (List.range log_size).map (fun i => sysBuf (rd_ptr + i))

/-- Observable result of `aie2_get_trace_event_content`: the metadata block
after the call, the bytes written to `kern_buf` in order, the copied
segments, and the returned `total_log_size`. -/
structure DrainOut where
  trace_metadata : trace_event_metadata
  kern_buf : List Nat
  segs : List (Nat × Nat)
  ret : Nat
deriving Repr, DecidableEq

/-- `aie2_get_trace_event_content`: drain the shared ring buffer into the
kernel scratch buffer.  `rb_size` stands for the constant
`TRACE_EVENT_BUFFER_SIZE - TRACE_EVENT_BUFFER_METADATA_SIZE` (numeric values
live in a header outside this unit); `sysBuf` gives the byte of the log area
at each physical offset.  Faithful to the source: `rd_ptr` is the old
`head_offset % rb_size`; `wr_ptr` is `tail_offset` cast to `uint32_t`
(truncation modelled as `% 2^32`); the metadata `head_offset` is overwritten
with `wr_ptr` before the copy loop runs. -/
def aie2_get_trace_event_content (rb_size : Nat) (meta : trace_event_metadata)
    (sysBuf : Nat → Nat) : DrainOut :=
  if rb_size = 0 then ⟨meta, [], [], 0⟩
  else
    let rd_ptr := meta.head_offset % rb_size
    let wr_ptr := meta.tail_offset % 2 ^ 32
    let wr_ptr_wrap := wr_ptr % rb_size
    let meta2 : trace_event_metadata := { meta with head_offset := wr_ptr }
    match drainLoop rb_size wr_ptr_wrap (rb_size + 2) rd_ptr 0 [] with
    | some out =>
      let kern := (out.segs.map (fun s => segBytes sysBuf s.1 s.2)).flatten
      match out.exit with
      | .done total _ => ⟨meta2, kern, out.segs, total⟩
      | _ => ⟨meta2, kern, out.segs, 0⟩
    | none => ⟨meta2, [], [], 0⟩

/-- If the drain loop finishes within some fuel, any larger fuel gives the
same outcome (the fuel is an upper bound on iterations, not part of the
algorithm). -/
theorem drainLoop_mono : ∀ (fuel fuel2 rb_size w rd total : Nat)
    (segs : List (Nat × Nat)) (out : LoopOut),
    fuel ≤ fuel2 →
    drainLoop rb_size w fuel rd total segs = some out →
    drainLoop rb_size w fuel2 rd total segs = some out := by
  intro fuel
  induction fuel with
  | zero =>
    intro fuel2 rb w rd total segs out _ hsome
    simp [drainLoop] at hsome
  | succ f ih =>
    intro fuel2 rb w rd total segs out h hsome
    obtain ⟨g, rfl⟩ : ∃ g, fuel2 = g + 1 := ⟨fuel2 - 1, by omega⟩
    rw [drainLoop_succ] at hsome ⊢
    by_cases h1 : w = rd
    · rw [if_pos h1] at hsome ⊢; exact hsome
    · rw [if_neg h1] at hsome ⊢
      dsimp only at hsome ⊢
      by_cases h2 : rb < (if rd < w then w - rd else rb - rd)
      · rw [if_pos h2] at hsome ⊢; exact hsome
      · rw [if_neg h2] at hsome ⊢
        by_cases h3 : (rd + (if rd < w then w - rd else rb - rd)) % rb < w
        · rw [if_pos h3] at hsome ⊢
          exact ih g rb w _ _ _ out (by omega) hsome
        · rw [if_neg h3] at hsome ⊢; exact hsome

/-- Equal pointers: the loop returns 0 on its first iteration. -/
theorem drainLoop_empty (rb_size w fuel total : Nat) (segs : List (Nat × Nat)) :
    drainLoop rb_size w (fuel + 1) w total segs = some ⟨segs, .emptyRange⟩ := by
  rw [drainLoop_succ, if_pos rfl]

/-- Non-wrapping range (`rd_ptr < wr_ptr_wrap < rb_size`): a single
iteration copies `wr_ptr_wrap - rd_ptr` bytes and exits with
`rd_ptr = wr_ptr_wrap`. -/
theorem drainLoop_nowrap (rb_size w fuel rd total : Nat)
    (segs : List (Nat × Nat)) (hrw : rd < w) (hw : w < rb_size) :
    drainLoop rb_size w (fuel + 1) rd total segs =
      some ⟨segs ++ [(rd, w - rd)], .done (total + (w - rd)) w⟩ := by
  rw [drainLoop_succ, if_neg (by omega : ¬ w = rd)]
  dsimp only
  rw [if_pos hrw, if_neg (by omega : ¬ rb_size < w - rd)]
  have h2 : rd + (w - rd) = w := by omega
  rw [h2, Nat.mod_eq_of_lt hw, if_neg (lt_irrefl w)]

/-- Write pointer wrapped to exactly 0 (`wr_ptr_wrap = 0 < rd_ptr`): a single
iteration copies the tail segment `rb_size - rd_ptr` and exits at 0. -/
theorem drainLoop_wrap_zero (rb_size fuel rd total : Nat)
    (segs : List (Nat × Nat)) (h0 : 0 < rd) (hrd : rd < rb_size) :
    drainLoop rb_size 0 (fuel + 1) rd total segs =
      some ⟨segs ++ [(rd, rb_size - rd)], .done (total + (rb_size - rd)) 0⟩ := by
  rw [drainLoop_succ, if_neg (by omega : ¬ (0 : Nat) = rd)]
  dsimp only
  rw [if_neg (by omega : ¬ rd < 0), if_neg (by omega : ¬ rb_size < rb_size - rd)]
  have h2 : rd + (rb_size - rd) = rb_size := by omega
  rw [h2, Nat.mod_self, if_neg (lt_irrefl 0)]

/-- Genuinely wrapping range (`0 < wr_ptr_wrap < rd_ptr < rb_size`): two
iterations, the tail segment then the head segment from offset 0, exiting at
`wr_ptr_wrap`. -/
theorem drainLoop_wrap (rb_size w fuel rd total : Nat)
    (segs : List (Nat × Nat)) (h0 : 0 < w) (hwr : w < rd) (hrd : rd < rb_size) :
    drainLoop rb_size w (fuel + 2) rd total segs =
      some ⟨segs ++ [(rd, rb_size - rd), (0, w)],
            .done (total + (rb_size - rd) + w) w⟩ := by
  rw [drainLoop_succ, if_neg (by omega : ¬ w = rd)]
  dsimp only
  rw [if_neg (by omega : ¬ rd < w), if_neg (by omega : ¬ rb_size < rb_size - rd)]
  have h2 : rd + (rb_size - rd) = rb_size := by omega
  rw [h2, Nat.mod_self, if_pos h0]
  rw [drainLoop_succ, if_neg (by omega : ¬ w = 0)]
  dsimp only
  rw [if_pos h0, Nat.sub_zero, if_neg (by omega : ¬ rb_size < w), Nat.zero_add,
    Nat.mod_eq_of_lt (by omega : w < rb_size), if_neg (lt_irrefl w)]
  simp

/-- One unit of fuel is not enough when the range genuinely wraps: the first
iteration does not exit the loop. -/
theorem drainLoop_wrap_one (rb_size w rd total : Nat)
    (segs : List (Nat × Nat)) (h0 : 0 < w) (hwr : w < rd) (hrd : rd < rb_size) :
    drainLoop rb_size w 1 rd total segs = none := by
  rw [show (1 : Nat) = 0 + 1 from rfl, drainLoop_succ,
    if_neg (by omega : ¬ w = rd)]
  dsimp only
  rw [if_neg (by omega : ¬ rd < w), if_neg (by omega : ¬ rb_size < rb_size - rd)]
  have h2 : rd + (rb_size - rd) = rb_size := by omega
  rw [h2, Nat.mod_self, if_pos h0]
  rfl

/-- Characterization of `aie2_get_trace_event_content` once the loop's
outcome is known. -/
theorem get_content_eq (rb_size : Nat) (meta : trace_event_metadata)
    (sysBuf : Nat → Nat) (out : LoopOut) (hrb : ¬ rb_size = 0)
    (h : drainLoop rb_size ((meta.tail_offset % 2 ^ 32) % rb_size)
          (rb_size + 2) (meta.head_offset % rb_size) 0 [] = some out) :
    aie2_get_trace_event_content rb_size meta sysBuf =
      ⟨{ meta with head_offset := meta.tail_offset % 2 ^ 32 },
       (out.segs.map (fun s => segBytes sysBuf s.1 s.2)).flatten,
       out.segs,
       match out.exit with
       | .done total _ => total
       | _ => 0⟩ := by
  unfold aie2_get_trace_event_content
  rw [if_neg hrb]
  dsimp only
  rw [h]
  rcases out with ⟨segs, exit⟩
  cases exit <;> rfl

/-- Full case analysis of the drain loop from its entry values: fuel 2 always
suffices, the loop exits with `rd_ptr = wr_ptr_wrap`, and fuel 1 suffices
exactly when the produced range does not genuinely wrap
(`0 < wr_ptr_wrap < rd_ptr`). -/
theorem drainLoop_cases (rb_size w rd : Nat) (hrd : rd < rb_size)
    (hw : w < rb_size) :
    ∃ out : LoopOut,
      drainLoop rb_size w 2 rd 0 [] = some out ∧
      (∀ total rf, out.exit = DrainExit.done total rf → rf = w) ∧
      ((0 < w ∧ w < rd) → drainLoop rb_size w 1 rd 0 [] = none) ∧
      (¬ (0 < w ∧ w < rd) → drainLoop rb_size w 1 rd 0 [] = some out) := by
  rcases Nat.lt_trichotomy w rd with hlt | heq | hgt
  · by_cases h0 : 0 < w
    · refine ⟨⟨[(rd, rb_size - rd), (0, w)], .done (0 + (rb_size - rd) + w) w⟩,
        drainLoop_wrap rb_size w 0 rd 0 [] h0 hlt hrd, ?_, ?_, ?_⟩
      · intro total rf hh
        injection hh with h1 h2
        exact h2.symm
      · intro _
        exact drainLoop_wrap_one rb_size w rd 0 [] h0 hlt hrd
      · intro hc
        exact absurd ⟨h0, hlt⟩ hc
    · have hw0 : w = 0 := by omega
      subst hw0
      refine ⟨⟨[(rd, rb_size - rd)], .done (0 + (rb_size - rd)) 0⟩,
        drainLoop_wrap_zero rb_size 1 rd 0 [] (by omega) hrd, ?_, ?_, ?_⟩
      · intro total rf hh
        injection hh with h1 h2
        exact h2.symm
      · intro hc
        exact absurd hc.1 (lt_irrefl 0)
      · intro _
        exact drainLoop_wrap_zero rb_size 0 rd 0 [] (by omega) hrd
  · subst heq
    refine ⟨⟨[], .emptyRange⟩, drainLoop_empty rb_size w 1 0 [], ?_, ?_, ?_⟩
    · intro total rf hh
      cases hh
    · intro hc
      exact absurd hc.2 (lt_irrefl w)
    · intro _
      exact drainLoop_empty rb_size w 0 0 []
  · refine ⟨⟨[(rd, w - rd)], .done (0 + (w - rd)) w⟩,
      drainLoop_nowrap rb_size w 1 rd 0 [] hgt hw, ?_, ?_, ?_⟩
    · intro total rf hh
      injection hh with h1 h2
      exact h2.symm
    · intro hc
      omega
    · intro _
      exact drainLoop_nowrap rb_size w 0 rd 0 [] hgt hw

/-- The loop never takes the defensive corruption branch, every copied
segment is strictly shorter than the log area, and the final
`total_log_size` is strictly below `rb_size`. -/
theorem drainLoop_safe (rb_size w rd : Nat) (hrd : rd < rb_size)
    (hw : w < rb_size) :
    ∃ out : LoopOut,
      drainLoop rb_size w 2 rd 0 [] = some out ∧
      out.exit ≠ DrainExit.corrupt ∧
      (∀ s ∈ out.segs, s.2 < rb_size) ∧
      (∀ total rf, out.exit = DrainExit.done total rf → total < rb_size) := by
  rcases Nat.lt_trichotomy w rd with hlt | heq | hgt
  · by_cases h0 : 0 < w
    · refine ⟨⟨[(rd, rb_size - rd), (0, w)], .done (0 + (rb_size - rd) + w) w⟩,
        drainLoop_wrap rb_size w 0 rd 0 [] h0 hlt hrd, by simp, ?_, ?_⟩
      · intro s hs
        simp only [List.mem_cons, List.not_mem_nil, or_false] at hs
        rcases hs with rfl | rfl <;> dsimp only <;> omega
      · intro total rf hh
        injection hh with h1 h2
        omega
    · have hw0 : w = 0 := by omega
      subst hw0
      refine ⟨⟨[(rd, rb_size - rd)], .done (0 + (rb_size - rd)) 0⟩,
        drainLoop_wrap_zero rb_size 1 rd 0 [] (by omega) hrd, by simp, ?_, ?_⟩
      · intro s hs
        simp only [List.mem_cons, List.not_mem_nil, or_false] at hs
        subst hs
        dsimp only
        omega
      · intro total rf hh
        injection hh with h1 h2
        omega
  · subst heq
    exact ⟨⟨[], .emptyRange⟩, drainLoop_empty rb_size w 1 0 [], by simp,
      by simp, fun total rf hh => by cases hh⟩
  · refine ⟨⟨[(rd, w - rd)], .done (0 + (w - rd)) w⟩,
      drainLoop_nowrap rb_size w 1 rd 0 [] hgt hw, by simp, ?_, ?_⟩
    · intro s hs
      simp only [List.mem_cons, List.not_mem_nil, or_false] at hs
      subst hs
      dsimp only
      omega
    · intro total rf hh
      injection hh with h1 h2
      omega

/-- C1: drain correctness on the spec's two vectors.  With `rb_size = 1000`,
`head_offset = 10`, `tail_offset = 50`, the drain copies exactly the 40 bytes
at physical offsets 10..50 as one segment, returns 40, and sets
`head_offset = 50`.  With `rb_size = 100`, `head_offset = 90`,
`tail_offset = 120`, it copies the 10 bytes at offsets 90..100 then the
20 bytes at offsets 0..20, in that order as two physical segments, returns
30, and sets `head_offset = 120`. -/
theorem C1_drain_vectors (sysBuf : Nat → Nat) :
    aie2_get_trace_event_content 1000 ⟨50, 10⟩ sysBuf =
      ⟨⟨50, 50⟩, (List.range 40).map (fun i => sysBuf (10 + i)),
       [(10, 40)], 40⟩ ∧
    aie2_get_trace_event_content 100 ⟨120, 90⟩ sysBuf =
      ⟨⟨120, 120⟩,
       (List.range 10).map (fun i => sysBuf (90 + i)) ++
         (List.range 20).map (fun i => sysBuf (0 + i)),
       [(90, 10), (0, 20)], 30⟩ :=
  ⟨rfl, rfl⟩

/-- C2 counterexample: with `tail_offset = 2^32` (and `head_offset = 0`,
`rb_size = 1000`), the drain does not write the absolute 64-bit tail value
into `head_offset`: the source casts the tail to `uint32_t` first, so the
value written is `2^32 % 2^32 = 0`. -/
theorem C2_counterexample :
    (aie2_get_trace_event_content 1000 ⟨2 ^ 32, 0⟩
        (fun _ => 0)).trace_metadata.head_offset ≠ 2 ^ 32 := by
  decide

/-- C2 (amended): on every drain with a nonzero log area,
`metadata.head_offset` is set to the entry value of `tail_offset` truncated
to 32 bits (`tail_offset % 2^32`) — equal to the absolute tail whenever the
tail is below `2^32` — and the written value depends only on the entry
metadata, not on the copy loop or the buffer contents (in the source the
write precedes the copy loop). -/
theorem C2_head_offset_write (rb_size : Nat) (meta : trace_event_metadata)
    (sysBuf : Nat → Nat) (hrb : 0 < rb_size) :
    (aie2_get_trace_event_content rb_size meta
        sysBuf).trace_metadata.head_offset = meta.tail_offset % 2 ^ 32 ∧
    (meta.tail_offset < 2 ^ 32 →
      (aie2_get_trace_event_content rb_size meta
          sysBuf).trace_metadata.head_offset = meta.tail_offset) := by
  have hrd : meta.head_offset % rb_size < rb_size := Nat.mod_lt _ hrb
  have hw : (meta.tail_offset % 2 ^ 32) % rb_size < rb_size := Nat.mod_lt _ hrb
  obtain ⟨out, h2, -⟩ :=
    drainLoop_cases rb_size ((meta.tail_offset % 2 ^ 32) % rb_size)
      (meta.head_offset % rb_size) hrd hw
  have hbig := drainLoop_mono 2 (rb_size + 2) rb_size _ _ 0 [] out
    (by omega) h2
  have hmain : (aie2_get_trace_event_content rb_size meta
      sysBuf).trace_metadata.head_offset = meta.tail_offset % 2 ^ 32 := by
    rw [get_content_eq rb_size meta sysBuf out (by omega) hbig]
  exact ⟨hmain, fun h => by rw [hmain, Nat.mod_eq_of_lt h]⟩

/-- C2 amended witness at `rb_size = 1000`, `tail_offset = 50`,
`head_offset = 10`. -/
theorem C2_head_offset_write_witness :
    (aie2_get_trace_event_content 1000 ⟨50, 10⟩
        (fun _ => 0)).trace_metadata.head_offset = 50 % 2 ^ 32 ∧
    (50 < 2 ^ 32 →
      (aie2_get_trace_event_content 1000 ⟨50, 10⟩
          (fun _ => 0)).trace_metadata.head_offset = 50) :=
  C2_head_offset_write 1000 ⟨50, 10⟩ (fun _ => 0) (by decide)

/-- C8: for every pair of `head_offset` and `tail_offset` values and any
positive `rb_size`, the drain's copy loop terminates within two iterations
(fuel 2 always yields a result), the loop exits with the read pointer equal
to the wrapped write pointer, the loop needs the second iteration exactly
when the produced range genuinely wraps (`0 < wr_ptr_wrap < rd_ptr`), and
one iteration suffices otherwise. -/
theorem C8_drain_loop_terminates (rb_size head_offset tail_offset : Nat)
    (hrb : 0 < rb_size) :
    ∃ out : LoopOut,
      drainLoop rb_size ((tail_offset % 2 ^ 32) % rb_size) 2
        (head_offset % rb_size) 0 [] = some out ∧
      (∀ total rf, out.exit = DrainExit.done total rf →
        rf = (tail_offset % 2 ^ 32) % rb_size) ∧
      ((0 < (tail_offset % 2 ^ 32) % rb_size ∧
          (tail_offset % 2 ^ 32) % rb_size < head_offset % rb_size) →
        drainLoop rb_size ((tail_offset % 2 ^ 32) % rb_size) 1
          (head_offset % rb_size) 0 [] = none) ∧
      (¬ (0 < (tail_offset % 2 ^ 32) % rb_size ∧
          (tail_offset % 2 ^ 32) % rb_size < head_offset % rb_size) →
        drainLoop rb_size ((tail_offset % 2 ^ 32) % rb_size) 1
          (head_offset % rb_size) 0 [] = some out) :=
  drainLoop_cases rb_size ((tail_offset % 2 ^ 32) % rb_size)
    (head_offset % rb_size) (Nat.mod_lt _ hrb) (Nat.mod_lt _ hrb)

/-- C8 witness at `rb_size = 100`, `head_offset = 90`,
`tail_offset = 120` (the wrapping vector). -/
theorem C8_drain_loop_terminates_witness :
    ∃ out : LoopOut,
      drainLoop 100 ((120 % 2 ^ 32) % 100) 2 (90 % 100) 0 [] = some out ∧
      (∀ total rf, out.exit = DrainExit.done total rf →
        rf = (120 % 2 ^ 32) % 100) ∧
      ((0 < (120 % 2 ^ 32) % 100 ∧ (120 % 2 ^ 32) % 100 < 90 % 100) →
        drainLoop 100 ((120 % 2 ^ 32) % 100) 1 (90 % 100) 0 [] = none) ∧
      (¬ (0 < (120 % 2 ^ 32) % 100 ∧ (120 % 2 ^ 32) % 100 < 90 % 100) →
        drainLoop 100 ((120 % 2 ^ 32) % 100) 1 (90 % 100) 0 [] = some out) :=
  C8_drain_loop_terminates 100 90 120 (by decide)

/-- C10: every segment length computed inside the drain loop is strictly
below `rb_size`, so the defensive corruption branch is never taken, and the
returned byte count never exceeds
`rb_size = TRACE_EVENT_BUFFER_SIZE - TRACE_EVENT_BUFFER_METADATA_SIZE`; in
particular it stays strictly below `TRACE_EVENT_BUFFER_SIZE` (here the
buffer size `B` and metadata size `M` are arbitrary with `B - M` nonzero),
so the decoder's null-terminator index `g_fwLogBuf[log_size]` is in
bounds. -/
theorem C10_drain_bounds (B M : Nat) (meta : trace_event_metadata)
    (sysBuf : Nat → Nat) (hrb : 0 < B - M) :
    (∀ out : LoopOut,
        drainLoop (B - M) ((meta.tail_offset % 2 ^ 32) % (B - M)) (B - M + 2)
          (meta.head_offset % (B - M)) 0 [] = some out →
        out.exit ≠ DrainExit.corrupt ∧ ∀ s ∈ out.segs, s.2 < B - M) ∧
    (aie2_get_trace_event_content (B - M) meta sysBuf).ret ≤ B - M ∧
    (aie2_get_trace_event_content (B - M) meta sysBuf).ret < B := by
  have hrd : meta.head_offset % (B - M) < B - M := Nat.mod_lt _ hrb
  have hw : (meta.tail_offset % 2 ^ 32) % (B - M) < B - M := Nat.mod_lt _ hrb
  obtain ⟨out, h2, hcor, hsegs, htot⟩ :=
    drainLoop_safe (B - M) ((meta.tail_offset % 2 ^ 32) % (B - M))
      (meta.head_offset % (B - M)) hrd hw
  have hbig := drainLoop_mono 2 (B - M + 2) (B - M) _ _ 0 [] out
    (by omega) h2
  have hret : (aie2_get_trace_event_content (B - M) meta sysBuf).ret < B - M := by
    rw [get_content_eq (B - M) meta sysBuf out (by omega) hbig]
    rcases hex : out.exit with _ | _ | ⟨total, rf⟩
    · exact hrb
    · exact hrb
    · exact htot total rf hex
  refine ⟨?_, by omega, by omega⟩
  intro out2 hout2
  rw [hbig] at hout2
  injection hout2 with h3
  subst h3
  exact ⟨hcor, hsegs⟩

/-- C10 witness at `B = 1064`, `M = 64` (`rb_size = 1000`), the no-wrap
vector metadata. -/
theorem C10_drain_bounds_witness :
    (∀ out : LoopOut,
        drainLoop (1064 - 64)
          (((50 : Nat) % 2 ^ 32) % (1064 - 64)) (1064 - 64 + 2)
          ((10 : Nat) % (1064 - 64)) 0 [] = some out →
        out.exit ≠ DrainExit.corrupt ∧ ∀ s ∈ out.segs, s.2 < 1064 - 64) ∧
    (aie2_get_trace_event_content (1064 - 64) ⟨50, 10⟩
        (fun _ => 0)).ret ≤ 1064 - 64 ∧
    (aie2_get_trace_event_content (1064 - 64) ⟨50, 10⟩
        (fun _ => 0)).ret < 1064 :=
  C10_drain_bounds 1064 64 ⟨50, 10⟩ (fun _ => 0) (by decide)

/-- `struct trace_event_log_data`: one fixed-size log record.  `counter` is
the 64-bit device counter, `payload_hi` a 16-bit value, `type` a 16-bit
value, `payload_low` a 32-bit value. -/
structure trace_event_log_data where
  counter : Nat
  payload_hi : Nat
  type : Nat
  payload_low : Nat
deriving Repr, DecidableEq

/-- `payload = (uint64)((uint64)(log_content->payload_hi) << 32 |
log_content->payload_low)` from `aie2_print_trace_event_log` (no `uint64`
overflow is possible for in-range `uint16`/`uint32` fields). -/
def record_payload (r : trace_event_log_data) : Nat :=
  (r.payload_hi <<< 32) ||| r.payload_low

/-- The two `fwTicks` assignments of `aie2_print_trace_event_log`:
`fwTicks = counter - resp_timestamp` in wrapping `uint64` arithmetic, then
`fwTicks = fwTicks / 24 + sys_start_time`, again in `uint64`. -/
def record_fwTicks (counter resp_timestamp sys_start_time : Nat) : Nat :=
  ((counter % 2 ^ 64 + (2 ^ 64 - resp_timestamp % 2 ^ 64)) % 2 ^ 64 / 24 +
    sys_start_time) % 2 ^ 64

/-- The record-printing loop of `aie2_print_trace_event_log`, at record
granularity: the drained bytes are walked in strides of
`MAX_ONE_TIME_LOG_INFO_LEN` and each stride is read as a
`trace_event_log_data`; here the decoded record list is the input and the
output is the emitted `(fwTicks, type, payload)` triple per record. -/
def aie2_print_trace_event_log (records : List trace_event_log_data)
    (resp_timestamp sys_start_time : Nat) : List (Nat × Nat × Nat) :=
  records.map (fun r =>
    (record_fwTicks r.counter resp_timestamp sys_start_time, r.type,
     record_payload r))

/-- C6: timestamp correlation.  For every decoded record whose fields are in
range of their C types, with counter at or after the anchor and no `uint64`
overflow of the result, the emitted host-relative time is
`(counter - resp_timestamp) / 24 + sys_start_time` in integer arithmetic and
the emitted logical payload is `(payload_hi <<< 32) ||| payload_low`; in
particular, with `resp_timestamp = 1000`, `sys_start_time = 5000` and
`counter = 1048` the computed time is 5002. -/
theorem C6_timestamp_correlation (records : List trace_event_log_data)
    (resp_timestamp sys_start_time : Nat)
    (hb : ∀ r ∈ records, resp_timestamp ≤ r.counter ∧ r.counter < 2 ^ 64 ∧
      (r.counter - resp_timestamp) / 24 + sys_start_time < 2 ^ 64) :
    aie2_print_trace_event_log records resp_timestamp sys_start_time =
      records.map (fun r =>
        ((r.counter - resp_timestamp) / 24 + sys_start_time, r.type,
         (r.payload_hi <<< 32) ||| r.payload_low)) ∧
    record_fwTicks 1048 1000 5000 = 5002 := by
  constructor
  · unfold aie2_print_trace_event_log
    induction records with
    | nil => rfl
    | cons r rs ih =>
      have hr := hb r (List.mem_cons_self r rs)
      have hrest : ∀ x ∈ rs, resp_timestamp ≤ x.counter ∧ x.counter < 2 ^ 64 ∧
          (x.counter - resp_timestamp) / 24 + sys_start_time < 2 ^ 64 :=
        fun x hx => hb x (List.mem_cons_of_mem r hx)
      simp only [List.map_cons, List.cons.injEq]
      refine ⟨?_, ih hrest⟩
      obtain ⟨h1, h2, h3⟩ := hr
      have hc : r.counter % 2 ^ 64 = r.counter := Nat.mod_eq_of_lt h2
      have ht : resp_timestamp % 2 ^ 64 = resp_timestamp :=
        Nat.mod_eq_of_lt (by omega)
      unfold record_fwTicks
      rw [hc, ht]
      have hsub : r.counter + (2 ^ 64 - resp_timestamp) =
          2 ^ 64 + (r.counter - resp_timestamp) := by omega
      rw [hsub, Nat.add_mod_left,
        Nat.mod_eq_of_lt (by omega : r.counter - resp_timestamp < 2 ^ 64),
        Nat.mod_eq_of_lt h3]
      rfl
  · decide

/-- C6 witness: one record with the spec's anchor and counter. -/
theorem C6_timestamp_correlation_witness :
    aie2_print_trace_event_log [⟨1048, 3, 7, 9⟩] 1000 5000 =
      [((1048 - 1000) / 24 + 5000, (7 : Nat),
        ((3 : Nat) <<< 32) ||| 9)] ∧
    record_fwTicks 1048 1000 5000 = 5002 :=
  C6_timestamp_correlation [⟨1048, 3, 7, 9⟩] 1000 5000 (by decide)

/-- The device handle `struct amdxdna_dev_hdl`, restricted to the fields the
event-trace unit touches, extended with a resource ledger making the unit's
side effects explicit: `live_ctrl_allocs` counts `kzalloc`'d control
structures not yet `kfree`'d, `live_dma_allocs` the DMA buffers from
`dma_alloc_noncoherent` not yet freed, `live_irq_regs` the interrupts from
`request_irq` not yet `free_irq`'d, `msix_clear_writes` the number of
`writel(0, LOG_BUF_MB_IOHUB_PTR)` register writes, and `start_trace_msgs` /
`stop_trace_msgs` the firmware messages sent.  `pdev_present`, `pdev_device`
and `pdev_revision` model the PCI enumeration data read by the capability
gate. -/
structure amdxdna_dev_hdl where
  event_trace_enabled : Nat
  event_trace_req : Option Unit
  dev_status : Nat
  pdev_present : Bool
  pdev_device : Nat
  pdev_revision : Nat
  live_ctrl_allocs : Nat
  live_dma_allocs : Nat
  live_irq_regs : Nat
  msix_clear_writes : Nat
  start_trace_msgs : Nat
  stop_trace_msgs : Nat
deriving Repr, DecidableEq

/-- Outcomes of the external collaborators (allocator, interrupt
registration, firmware mailbox) during one transition, as the C code
observes them through return values. -/
structure ExtEnv where
  kzalloc_ok : Bool
  dma_alloc_ok : Bool
  request_irq_ret : Int
  start_msg_ret : Int
  stop_msg_ret : Int
deriving Repr, DecidableEq

/-- `clear_event_trace_msix`: `writel(0, mbox_base + LOG_BUF_MB_IOHUB_PTR)`,
recorded in the ledger. -/
def clear_event_trace_msix (ndev : amdxdna_dev_hdl) : amdxdna_dev_hdl :=
  { ndev with msix_clear_writes := ndev.msix_clear_writes + 1 }

/-- `aie2_is_event_trace_supported_on_dev`: false when the PCI device is
unavailable, otherwise `pdev->device == 0x17f0 && pdev->revision >= 0x10`. -/
def aie2_is_event_trace_supported_on_dev (ndev : amdxdna_dev_hdl) : Bool :=
  if ¬ ndev.pdev_present then false
  else decide (ndev.pdev_device = 0x17f0) && decide (0x10 ≤ ndev.pdev_revision)

/-- `aie2_event_trace_alloc`: `kzalloc` the control structure, DMA-allocate
the trace buffer (on failure free the control structure, null the session
pointer, return `-ENOMEM`), publish the session pointer, `request_irq` (on
failure free the DMA buffer, null the session pointer, free the control
structure, return the `request_irq` error). -/
def aie2_event_trace_alloc (env : ExtEnv) (ndev : amdxdna_dev_hdl) :
    amdxdna_dev_hdl × Int :=
  if ¬ env.kzalloc_ok then (ndev, -12)
  else
    let s1 := { ndev with live_ctrl_allocs := ndev.live_ctrl_allocs + 1 }
    if ¬ env.dma_alloc_ok then
      ({ s1 with event_trace_req := none,
                 live_ctrl_allocs := s1.live_ctrl_allocs - 1 }, -12)
    else
      let s2 := { s1 with live_dma_allocs := s1.live_dma_allocs + 1,
                          event_trace_req := some () }
      if env.request_irq_ret ≠ 0 then
        ({ s2 with live_dma_allocs := s2.live_dma_allocs - 1,
                   event_trace_req := none,
                   live_ctrl_allocs := s2.live_ctrl_allocs - 1 },
         env.request_irq_ret)
      else
        ({ s2 with live_irq_regs := s2.live_irq_regs + 1 }, 0)

/-- `aie2_start_event_trace_send`: allocate the session, then (only on
success) send the firmware start-trace message and return its status. -/
def aie2_start_event_trace_send (env : ExtEnv) (ndev : amdxdna_dev_hdl) :
    amdxdna_dev_hdl × Int :=
  let r := aie2_event_trace_alloc env ndev
  if r.2 = 0 then
    ({ r.1 with start_trace_msgs := r.1.start_trace_msgs + 1 },
     env.start_msg_ret)
  else r

/-- `aie2_event_trace_free`: no-op when no session exists; otherwise free
the DMA buffer, null the session pointer, `free_irq`, `kfree` the control
structure. -/
def aie2_event_trace_free (ndev : amdxdna_dev_hdl) : amdxdna_dev_hdl :=
  match ndev.event_trace_req with
  | none => ndev
  | some _ =>
    { ndev with live_dma_allocs := ndev.live_dma_allocs - 1,
                event_trace_req := none,
                live_irq_regs := ndev.live_irq_regs - 1,
                live_ctrl_allocs := ndev.live_ctrl_allocs - 1 }

/-- `aie2_stop_event_trace_send`: no-op returning 0 when no session exists,
otherwise send the firmware stop-trace message and return its status. -/
def aie2_stop_event_trace_send (env : ExtEnv) (ndev : amdxdna_dev_hdl) :
    amdxdna_dev_hdl × Int :=
  match ndev.event_trace_req with
  | none => (ndev, 0)
  | some _ =>
    ({ ndev with stop_trace_msgs := ndev.stop_trace_msgs + 1 },
     env.stop_msg_ret)

/-- Modelled from the spec: `AIE2_DEV_START`, the "started" milestone of the
device-status enum, lives in a header outside this unit; no theorem below
depends on its numeric value, only on the comparison
`dev_status >= AIE2_DEV_START`. -/
def AIE2_DEV_START : Nat := 1

/-- `aie2_assign_event_trace_state`: the enable/disable state machine.
Early (pre-transition) returns: unsupported device, or requested state equal
to the current flag.  Otherwise the flag is set first; on enable the session
is started and torn down again if the firmware start message fails; on
disable past the started milestone the stop message is sent and the session
freed.  The MSI-X clear runs only on the transition paths.  (The source's
`if (!ndev)` guard is outside this model, which takes a valid handle.) -/
def aie2_assign_event_trace_state (env : ExtEnv) (ndev : amdxdna_dev_hdl)
    (state : Nat) : amdxdna_dev_hdl :=
  if ¬ aie2_is_event_trace_supported_on_dev ndev then ndev
  else if ndev.event_trace_enabled = state then ndev
  else
    let s1 := { ndev with event_trace_enabled := state }
    let s2 :=
      if state ≠ 0 then
        let r := aie2_start_event_trace_send env s1
        if r.2 ≠ 0 then aie2_event_trace_free r.1 else r.1
      else
        if AIE2_DEV_START ≤ s1.dev_status then
          aie2_event_trace_free (aie2_stop_event_trace_send env s1).1
        else s1
    clear_event_trace_msix s2

/-- C5: capability gating.  When `aie2_is_event_trace_supported_on_dev`
returns false (PCI device unavailable, device id not 0x17f0, or revision
below 0x10), `aie2_assign_event_trace_state` returns with the device state
bit-for-bit unchanged: the enablement flag keeps its previous value, no
session is created, no firmware message is sent, and no resource or register
activity happens, for every requested state and every prior state. -/
theorem C5_capability_gating (env : ExtEnv) (ndev : amdxdna_dev_hdl)
    (state : Nat) (h : aie2_is_event_trace_supported_on_dev ndev = false) :
    aie2_assign_event_trace_state env ndev state = ndev := by
  unfold aie2_assign_event_trace_state
  rw [h]
  simp

/-- C5 witness: a device with id 0x17f1 (so unsupported), prior state
disabled, requested state enabled. -/
theorem C5_capability_gating_witness :
    aie2_assign_event_trace_state ⟨true, true, 0, 0, 0⟩
      ⟨0, none, 1, true, 0x17f1, 0x10, 0, 0, 0, 0, 0, 0⟩ 1 =
      ⟨0, none, 1, true, 0x17f1, 0x10, 0, 0, 0, 0, 0, 0⟩ :=
  C5_capability_gating ⟨true, true, 0, 0, 0⟩
    ⟨0, none, 1, true, 0x17f1, 0x10, 0, 0, 0, 0, 0, 0⟩ 1 (by decide)

/-- C4 counterexample: a supported device already in the requested state
(enabled flag 1, requested state 1).  The call returns through the
already-in-state early return without writing the MSI-X clear register: the
write counter stays 0, refuting the claim that every invocation writes the
register before returning. -/
theorem C4_counterexample :
    (aie2_assign_event_trace_state ⟨true, true, 0, 0, 0⟩
        ⟨1, none, 1, true, 0x17f0, 0x10, 0, 0, 0, 0, 0, 0⟩
        1).msix_clear_writes = 0 := by
  decide

/-- C4 (amended): `aie2_assign_event_trace_state` writes the MSI-X clear
register exactly once before returning on the two transition branches
(supported device and requested state differing from the current flag, both
enable and disable); the capability-denied and already-in-state branches
return early without touching the register (and without any other state
change). -/
theorem C4_msix_clear (env : ExtEnv) (ndev : amdxdna_dev_hdl) (state : Nat) :
    (aie2_is_event_trace_supported_on_dev ndev = true →
      ndev.event_trace_enabled ≠ state →
      (aie2_assign_event_trace_state env ndev state).msix_clear_writes =
        ndev.msix_clear_writes + 1) ∧
    (aie2_is_event_trace_supported_on_dev ndev = false ∨
        ndev.event_trace_enabled = state →
      aie2_assign_event_trace_state env ndev state = ndev) := by
  have hfree : ∀ s : amdxdna_dev_hdl,
      (aie2_event_trace_free s).msix_clear_writes = s.msix_clear_writes := by
    intro s
    unfold aie2_event_trace_free
    cases s.event_trace_req <;> rfl
  have hstop : ∀ s : amdxdna_dev_hdl,
      ((aie2_stop_event_trace_send env s).1).msix_clear_writes =
        s.msix_clear_writes := by
    intro s
    unfold aie2_stop_event_trace_send
    cases s.event_trace_req <;> rfl
  have halloc : ∀ s : amdxdna_dev_hdl,
      ((aie2_event_trace_alloc env s).1).msix_clear_writes =
        s.msix_clear_writes := by
    intro s
    unfold aie2_event_trace_alloc
    split_ifs <;> rfl
  have hstart : ∀ s : amdxdna_dev_hdl,
      ((aie2_start_event_trace_send env s).1).msix_clear_writes =
        s.msix_clear_writes := by
    intro s
    unfold aie2_start_event_trace_send
    dsimp only
    split_ifs with h
    · exact halloc s
    · exact halloc s
  constructor
  · intro hsup hne
    unfold aie2_assign_event_trace_state clear_event_trace_msix
    rw [if_neg (by simp [hsup]), if_neg hne]
    dsimp only
    split_ifs with h1 h2 h3
    · rw [hfree, hstart]
    · rw [hstart]
    · rw [hfree, hstop]
    · rfl
  · intro h
    unfold aie2_assign_event_trace_state
    rcases h with h | h
    · rw [if_pos (by simp [h])]
    · split_ifs with h1
      · rfl
      · rfl

/-- C4 witness: an enable transition on a supported disabled device writes
the MSI-X clear once; a supported device already in the requested state is
returned unchanged. -/
theorem C4_msix_clear_witness :
    (aie2_assign_event_trace_state ⟨true, true, 0, 0, 0⟩
        ⟨0, none, 1, true, 0x17f0, 0x10, 0, 0, 0, 0, 0, 0⟩
        1).msix_clear_writes = 0 + 1 ∧
    aie2_assign_event_trace_state ⟨true, true, 0, 0, 0⟩
        ⟨1, none, 1, true, 0x17f0, 0x10, 5, 0, 0, 0, 0, 0⟩ 1 =
      ⟨1, none, 1, true, 0x17f0, 0x10, 5, 0, 0, 0, 0, 0⟩ :=
  ⟨(C4_msix_clear ⟨true, true, 0, 0, 0⟩
      ⟨0, none, 1, true, 0x17f0, 0x10, 0, 0, 0, 0, 0, 0⟩ 1).1
      (by decide) (by decide),
   (C4_msix_clear ⟨true, true, 0, 0, 0⟩
      ⟨1, none, 1, true, 0x17f0, 0x10, 5, 0, 0, 0, 0, 0⟩ 1).2
      (Or.inr rfl)⟩

/-- C3: failed-start recovery.  On an enable transition of a supported,
currently disabled device with no active session, where the control and DMA
allocations and the interrupt registration all succeed but the firmware
start-trace message fails, `aie2_assign_event_trace_state` leaves the
active-session pointer null and every ledger count (DMA buffers, interrupt
registrations, control structures) exactly as before the call, and the
enable send path `aie2_start_event_trace_send` returns a nonzero failure
code. -/
theorem C3_failed_start_recovery (env : ExtEnv) (ndev : amdxdna_dev_hdl)
    (state : Nat)
    (hsup : aie2_is_event_trace_supported_on_dev ndev = true)
    (hdis : ndev.event_trace_enabled = 0) (hstate : state ≠ 0)
    (hreq : ndev.event_trace_req = none)
    (hkz : env.kzalloc_ok = true) (hdma : env.dma_alloc_ok = true)
    (hirq : env.request_irq_ret = 0) (hmsg : env.start_msg_ret ≠ 0) :
    (aie2_assign_event_trace_state env ndev state).event_trace_req = none ∧
    (aie2_assign_event_trace_state env ndev state).live_dma_allocs =
      ndev.live_dma_allocs ∧
    (aie2_assign_event_trace_state env ndev state).live_irq_regs =
      ndev.live_irq_regs ∧
    (aie2_assign_event_trace_state env ndev state).live_ctrl_allocs =
      ndev.live_ctrl_allocs ∧
    (aie2_start_event_trace_send env
        { ndev with event_trace_enabled := state }).2 ≠ 0 := by
  simp only [aie2_assign_event_trace_state, aie2_start_event_trace_send,
    aie2_event_trace_alloc, aie2_event_trace_free, clear_event_trace_msix]
  simp [hsup, hkz, hdma, hirq, hdis, hstate, hmsg, hreq, Ne.symm hstate]

/-- C3 witness: supported device, disabled, no session, ledger counts
(3, 4, 5); allocations succeed, firmware start message returns -110. -/
theorem C3_failed_start_recovery_witness :
    (aie2_assign_event_trace_state ⟨true, true, 0, -110, 0⟩
        ⟨0, none, 1, true, 0x17f0, 0x10, 3, 4, 5, 0, 0, 0⟩
        1).event_trace_req = none ∧
    (aie2_assign_event_trace_state ⟨true, true, 0, -110, 0⟩
        ⟨0, none, 1, true, 0x17f0, 0x10, 3, 4, 5, 0, 0, 0⟩
        1).live_dma_allocs = 4 ∧
    (aie2_assign_event_trace_state ⟨true, true, 0, -110, 0⟩
        ⟨0, none, 1, true, 0x17f0, 0x10, 3, 4, 5, 0, 0, 0⟩
        1).live_irq_regs = 5 ∧
    (aie2_assign_event_trace_state ⟨true, true, 0, -110, 0⟩
        ⟨0, none, 1, true, 0x17f0, 0x10, 3, 4, 5, 0, 0, 0⟩
        1).live_ctrl_allocs = 3 ∧
    (aie2_start_event_trace_send ⟨true, true, 0, -110, 0⟩
        ⟨1, none, 1, true, 0x17f0, 0x10, 3, 4, 5, 0, 0, 0⟩).2 ≠ 0 :=
  C3_failed_start_recovery ⟨true, true, 0, -110, 0⟩
    ⟨0, none, 1, true, 0x17f0, 0x10, 3, 4, 5, 0, 0, 0⟩ 1
    (by decide) rfl (by decide) rfl rfl rfl rfl (by decide)

/-- Helper: `aie2_assign_event_trace_state` is the identity when the device
is supported and the requested state equals the current flag. -/
theorem assign_noop_of_eq (env : ExtEnv) (ndev : amdxdna_dev_hdl)
    (state : Nat) (hsup : aie2_is_event_trace_supported_on_dev ndev = true)
    (heq : ndev.event_trace_enabled = state) :
    aie2_assign_event_trace_state env ndev state = ndev := by
  unfold aie2_assign_event_trace_state
  rw [if_neg (by simp [hsup]), if_pos heq]

/-- C9: when the firmware start message fails during an enable transition
(allocations succeeding), the enablement flag is nevertheless left at the
requested enabled value while the session pointer is null; consequently a
later enable request with the same state value, under any environment, is
treated as already-in-state and returns with no change at all (no new
session, no message, no register write). -/
theorem C9_flag_stays_enabled (env env2 : ExtEnv) (ndev : amdxdna_dev_hdl)
    (state : Nat)
    (hsup : aie2_is_event_trace_supported_on_dev ndev = true)
    (hdis : ndev.event_trace_enabled = 0) (hstate : state ≠ 0)
    (hkz : env.kzalloc_ok = true) (hdma : env.dma_alloc_ok = true)
    (hirq : env.request_irq_ret = 0) (hmsg : env.start_msg_ret ≠ 0) :
    (aie2_assign_event_trace_state env ndev state).event_trace_enabled =
      state ∧
    (aie2_assign_event_trace_state env ndev state).event_trace_req = none ∧
    aie2_assign_event_trace_state env2
        (aie2_assign_event_trace_state env ndev state) state =
      aie2_assign_event_trace_state env ndev state := by
  have h1 : aie2_assign_event_trace_state env ndev state =
      { ndev with event_trace_enabled := state,
                  event_trace_req := none,
                  msix_clear_writes := ndev.msix_clear_writes + 1,
                  start_trace_msgs := ndev.start_trace_msgs + 1 } := by
    simp only [aie2_assign_event_trace_state, aie2_start_event_trace_send,
      aie2_event_trace_alloc, aie2_event_trace_free, clear_event_trace_msix]
    simp [hsup, hkz, hdma, hirq, hdis, hstate, hmsg, Ne.symm hstate]
  rw [h1]
  refine ⟨rfl, rfl, ?_⟩
  exact assign_noop_of_eq env2 _ state hsup rfl

/-- C9 witness: the failed enable of the C3 scenario followed by a second
enable request under a fresh environment. -/
theorem C9_flag_stays_enabled_witness :
    (aie2_assign_event_trace_state ⟨true, true, 0, -110, 0⟩
        ⟨0, none, 1, true, 0x17f0, 0x10, 0, 0, 0, 0, 0, 0⟩
        1).event_trace_enabled = 1 ∧
    (aie2_assign_event_trace_state ⟨true, true, 0, -110, 0⟩
        ⟨0, none, 1, true, 0x17f0, 0x10, 0, 0, 0, 0, 0, 0⟩
        1).event_trace_req = none ∧
    aie2_assign_event_trace_state ⟨true, true, 0, 0, 0⟩
        (aie2_assign_event_trace_state ⟨true, true, 0, -110, 0⟩
          ⟨0, none, 1, true, 0x17f0, 0x10, 0, 0, 0, 0, 0, 0⟩ 1) 1 =
      aie2_assign_event_trace_state ⟨true, true, 0, -110, 0⟩
        ⟨0, none, 1, true, 0x17f0, 0x10, 0, 0, 0, 0, 0, 0⟩ 1 :=
  C9_flag_stays_enabled ⟨true, true, 0, -110, 0⟩ ⟨true, true, 0, 0, 0⟩
    ⟨0, none, 1, true, 0x17f0, 0x10, 0, 0, 0, 0, 0, 0⟩ 1
    (by decide) rfl (by decide) rfl rfl rfl (by decide)

/-- Helper: `aie2_event_trace_free` is the identity when no session is
active. -/
theorem aie2_event_trace_free_noop (ndev : amdxdna_dev_hdl)
    (h : ndev.event_trace_req = none) : aie2_event_trace_free ndev = ndev := by
  unfold aie2_event_trace_free
  rw [h]

/-- Helper: after `aie2_event_trace_free` the session pointer is null. -/
theorem aie2_event_trace_free_req (ndev : amdxdna_dev_hdl) :
    (aie2_event_trace_free ndev).event_trace_req = none := by
  unfold aie2_event_trace_free
  cases h : ndev.event_trace_req
  · exact h
  · rfl

/-- C7: session teardown is idempotent.  With no active session
`aie2_event_trace_free` changes nothing; after any call the session pointer
is null; hence two successive calls leave the device exactly as one call
does. -/
theorem C7_teardown_idempotent (ndev : amdxdna_dev_hdl) :
    (ndev.event_trace_req = none → aie2_event_trace_free ndev = ndev) ∧
    (aie2_event_trace_free ndev).event_trace_req = none ∧
    aie2_event_trace_free (aie2_event_trace_free ndev) =
      aie2_event_trace_free ndev :=
  ⟨aie2_event_trace_free_noop ndev, aie2_event_trace_free_req ndev,
   aie2_event_trace_free_noop _ (aie2_event_trace_free_req ndev)⟩

/-- C7 witness: a device without a session is unchanged; a device with a
session reaches a null session pointer and a fixed point after one call. -/
theorem C7_teardown_idempotent_witness :
    aie2_event_trace_free ⟨0, none, 0, true, 0x17f0, 0x10, 0, 0, 0, 0, 0, 0⟩ =
      ⟨0, none, 0, true, 0x17f0, 0x10, 0, 0, 0, 0, 0, 0⟩ ∧
    (aie2_event_trace_free
        ⟨1, some (), 1, true, 0x17f0, 0x10, 1, 1, 1, 0, 1, 0⟩).event_trace_req =
      none ∧
    aie2_event_trace_free (aie2_event_trace_free
        ⟨1, some (), 1, true, 0x17f0, 0x10, 1, 1, 1, 0, 1, 0⟩) =
      aie2_event_trace_free
        ⟨1, some (), 1, true, 0x17f0, 0x10, 1, 1, 1, 0, 1, 0⟩ :=
  ⟨(C7_teardown_idempotent
      ⟨0, none, 0, true, 0x17f0, 0x10, 0, 0, 0, 0, 0, 0⟩).1 rfl,
   (C7_teardown_idempotent
      ⟨1, some (), 1, true, 0x17f0, 0x10, 1, 1, 1, 0, 1, 0⟩).2.1,
   (C7_teardown_idempotent
      ⟨1, some (), 1, true, 0x17f0, 0x10, 1, 1, 1, 0, 1, 0⟩).2.2⟩
